import Mathlib

/-!
Shallow embedding of `custom_components/skodaconnect/__init__.py` (the
Skoda Connect Home Assistant integration) and proofs about its
coordinator, action dispatch and instrument lookup logic.

External collaborators (the `Connection` and `Vehicle` of the `skodaconnect`
library, and the `DataUpdateCoordinator` of Home Assistant) are modelled
abstractly: their observable state and call results appear as explicit
parameters, and the number of calls the embedded code makes to them is
tracked explicitly where a claim is about whether a call happens.
-/

/-- An instrument as produced by `vehicle.dashboard(...).instruments`:
only the identity fields the embedded code inspects
(`instrument.vehicle.vin`, `instrument.component`, `instrument.attr`). -/
structure Instrument where
  vin : String
  component : String
  attr : String
  deriving DecidableEq

/-- State of `SkodaData` (source lines 315-341): `self.instruments` and,
when a coordinator is attached, `self.coordinator.data`. -/
structure SkodaData where
  coordinatorData : Option (List Instrument)
  instruments : List Instrument

/-- The collection `SkodaData.instrument` iterates over:
`self.coordinator.data if self.coordinator is not None else self.instruments`. -/
def SkodaData.source (d : SkodaData) : List Instrument :=
  match d.coordinatorData with
  | some data => data
  | none => d.instruments

/-- `SkodaData.instrument` (source lines 326-341): first instrument whose
`vehicle.vin`, `component` and `attr` all match, else `None`
(`next(generator, None)`). -/
def SkodaData.instrument (d : SkodaData) (vin component attr : String) :
    Option Instrument :=
  d.source.find? fun i => i.vin == vin && i.component == component && i.attr == attr

/-- A service-call field value: Home Assistant service data fields carry
either numbers or strings (the `current` field of `set_current` may be
either). -/
inductive SVal where
  | num (n : Int)
  | str (s : String)
  deriving DecidableEq

/-- Observable effect of one service invocation: the value handed to the
remote action (`none` when the remote action is never called) and how
many coordinator refreshes were requested. -/
structure ActionTrace (α : Type) where
  sent : Option α
  refreshes : Nat
  deriving DecidableEq

/-- The `device_id` validator shared by all four service schemas:
`vol.All(cv.string, vol.Length(min=32, max=32))`. -/
def validDeviceId (s : String) : Bool :=
  s.length == 32

/-- Service-call data for `skodaconnect.set_charger_max_current`. -/
structure MaxCurrentCall where
  device_id : String
  current : SVal

/-- `SERVICE_SET_MAX_CURRENT_SCHEMA` (source lines 63-68): `current` must
satisfy `vol.Any(vol.In(range(5, 33)), vol.In(["maximum", "reduced"]))`. -/
def SERVICE_SET_MAX_CURRENT_SCHEMA (c : MaxCurrentCall) : Bool :=
  validDeviceId c.device_id &&
    (match c.current with
     | .num n => decide (5 ≤ n) && decide (n ≤ 32)
     | .str s => s == "maximum" || s == "reduced")

/-- The symbolic-to-numeric mapping inside `set_current` (source lines
210-213): `"maximum"` becomes `254`, `"reduced"` becomes `252`, anything
else is passed through unchanged. -/
def mapCurrent (v : SVal) : SVal :=
  match v with
  | .str s => if s == "maximum" then .num 254
              else if s == "reduced" then .num 252
              else .str s
  | .num n => .num n

/-- Handler `set_current` (source lines 202-221): map the `current`
value, call `car.set_charger_current(current)`, and request one
coordinator refresh exactly when the remote call reports success. -/
def set_current (call : MaxCurrentCall) (remote : SVal → Bool) :
    ActionTrace SVal :=
  let current := mapCurrent call.current
  if remote current then ⟨some current, 1⟩ else ⟨some current, 0⟩

/-- A `skodaconnect.set_charger_max_current` service invocation as the
host dispatches it: the schema validates the call data first and rejects
it before the handler (and hence any remote call) runs. -/
def invokeSetMaxCurrent (call : MaxCurrentCall) (remote : SVal → Bool) :
    ActionTrace SVal :=
  if SERVICE_SET_MAX_CURRENT_SCHEMA call then set_current call remote
  else ⟨none, 0⟩

/-- Service-call data for `skodaconnect.set_charge_limit`. -/
structure ChargeLimitCall where
  device_id : String
  limit : Int

/-- `SERVICE_SET_CHARGE_LIMIT_SCHEMA` (source lines 69-74): `limit` must
be in `vol.In([0, 10, 20, 30, 40, 50])`. -/
def SERVICE_SET_CHARGE_LIMIT_SCHEMA (c : ChargeLimitCall) : Bool :=
  validDeviceId c.device_id && ([0, 10, 20, 30, 40, 50] : List Int).contains c.limit

/-- Handler `set_charge_limit` (source lines 187-200): call
`car.set_charge_limit(limit)` and request one coordinator refresh exactly
when the remote call reports success. -/
def set_charge_limit (call : ChargeLimitCall) (remote : Int → Bool) :
    ActionTrace Int :=
  if remote call.limit then ⟨some call.limit, 1⟩ else ⟨some call.limit, 0⟩

/-- A `skodaconnect.set_charge_limit` service invocation as the host
dispatches it: schema validation first, handler only on success. -/
def invokeSetChargeLimit (call : ChargeLimitCall) (remote : Int → Bool) :
    ActionTrace Int :=
  if SERVICE_SET_CHARGE_LIMIT_SCHEMA call then set_charge_limit call remote
  else ⟨none, 0⟩

/-- The schedule payload `set_schedule` builds (source lines 168-174). -/
structure ScheduleData where
  enabled : Bool
  recurring : Bool
  date : String
  time : String
  days : String
  deriving DecidableEq

/-- Service-call data for `skodaconnect.set_departure_schedule`, after
schema validation (`id` in {1,2,3}, booleans, time, date, days mask). -/
structure ScheduleCall where
  device_id : String
  id : Int
  enabled : Bool
  recurring : Bool
  time : String
  date : String
  days : String

/-- The schedule dict built by `set_schedule` from the call data. -/
def scheduleOf (c : ScheduleCall) : ScheduleData :=
  ⟨c.enabled, c.recurring, c.date, c.time, c.days⟩

/-- Handler `set_schedule` (source lines 159-185): call
`car.set_timer_schedule(id, schedule)` and request one coordinator
refresh exactly when the remote call reports success. -/
def set_schedule (call : ScheduleCall) (remote : Int → ScheduleData → Bool) :
    ActionTrace (Int × ScheduleData) :=
  let payload := (call.id, scheduleOf call)
  if remote call.id (scheduleOf call) then ⟨some payload, 1⟩
  else ⟨some payload, 0⟩

/-- Service-call data for `skodaconnect.set_pheater_duration`, after
schema validation (`duration` in {10,20,30,40,50,60}). -/
structure PheaterCall where
  device_id : String
  duration : Int

/-- Handler `set_pheater_duration` (source lines 223-231): assign
`car.pheater_duration = duration` — an assignment with no failure
result — then unconditionally request one coordinator refresh. -/
def set_pheater_duration (call : PheaterCall) : ActionTrace Int :=
  ⟨some call.duration, 1⟩

/-- A raw vehicle record from the external `skodaconnect` library: the
embedded code inspects only `vehicle.vin`. -/
structure VehicleRec where
  vin : String
  deriving DecidableEq

/-- Abstract observable state of the external `skodaconnect.Connection`
collaborator: whether it is logged in, what `await connection.update()`
would return, and its vehicle list. -/
structure Connection where
  logged_in : Bool
  updateOk : Bool
  vehicles : List VehicleRec
  deriving DecidableEq

/-- The Python method `str.upper()` as the source applies it to VINs: upper-case
every character (modelled character-wise so it evaluates in proofs). -/
def pyUpper (s : String) : String :=
  ⟨s.data.map Char.toUpper⟩

/-- `SkodaCoordinator.update` (source lines 559-572). The first thing the
method does, unconditionally, is `await self.connection.update()` — one
network fetch, so the second component (the fetch count) is `1` in every
branch. If that call reports failure the method returns `False` (here
`none`); otherwise it returns the first vehicle whose `vin.upper()`
matches `self.vin` (already upper-cased at construction), or `False` when
no vehicle matches. -/
def SkodaCoordinator.update (conn : Connection) (vin : String) :
    Option VehicleRec × Nat :=
  if conn.updateOk = false then (none, 1)
  else (conn.vehicles.find? fun v => pyUpper v.vin == vin, 1)

/-- The only error `_async_update_data` can raise: `UpdateFailed`, which
Home Assistant treats as a refresh error. -/
inductive RefreshError where
  | updateFailed (msg : String)
  deriving DecidableEq

/-- The message passed to `UpdateFailed` on source line 514. -/
def updateFailedMessage : String :=
  "Failed to update Connect. Need to accept EULA? Try logging in to the portal: https://www.skoda-connect.com/"

/-- `SkodaCoordinator._async_update_data` (source lines 509-534): run
`self.update()`; when it returned a falsy value raise `UpdateFailed`,
otherwise derive and return `vehicle.dashboard(...).instruments`. The
dashboard derivation (external library, with the fixed mutable/spin/unit
configuration of the coordinator baked in) is the abstract `dashboard`
parameter. The second component counts network fetches performed. -/
def SkodaCoordinator.async_update_data (conn : Connection) (vin : String)
    (dashboard : VehicleRec → List Instrument) :
    Except RefreshError (List Instrument) × Nat :=
  match SkodaCoordinator.update conn vin with
  | (none, fetches) => (.error (.updateFailed updateFailedMessage), fetches)
  | (some vehicle, fetches) => (.ok (dashboard vehicle), fetches)

/-- Refresh-relevant state of the coordinator as held by the host
framework: the last snapshot (`coordinator.data`, `none` before the first
success) and `last_update_success`. -/
structure CoordState where
  data : Option (List Instrument)
  last_update_success : Bool
  deriving DecidableEq

/-- Modelled from the spec: the `DataUpdateCoordinator` refresh wrapper
of Home Assistant is not under `src/` (the repository only subclasses it),
so its bookkeeping is taken from the words of the spec — on success the new
snapshot "replaces `last_snapshot`" and `last_update_success` becomes
true; on failure `last_snapshot` is "left untouched" and
`last_update_success` becomes false. The fetching itself is the
`SkodaCoordinator.async_update_data` of the repository. -/
def SkodaCoordinator.async_refresh (st : CoordState) (conn : Connection)
    (vin : String) (dashboard : VehicleRec → List Instrument) : CoordState :=
  match (SkodaCoordinator.async_update_data conn vin dashboard).1 with
  | .ok snapshot => ⟨some snapshot, true⟩
  | .error _ => ⟨st.data, false⟩

/-- `SkodaCoordinator.async_login` (source lines 546-557). The external
`doLogin` call mutates the connection; it is modelled as a state
transformer. Returns the boolean result, the connection state afterwards,
and how many times `doLogin` was called. -/
def SkodaCoordinator.async_login (conn : Connection)
    (doLogin : Connection → Connection) : Bool × Connection × Nat :=
  if conn.logged_in = false then
    let conn2 := doLogin conn
    if conn2.logged_in = false then (false, conn2, 1)
    else (true, conn2, 1)
  else (true, conn, 0)

/-- `SkodaCoordinator.async_logout` (source lines 536-544): when logged
in, `await self.connection.logout()`; an exception from it is caught,
logged and turned into `False`. Returns the boolean result and how many
times `logout` was called. The function is total: no exception escapes. -/
def SkodaCoordinator.async_logout (conn : Connection)
    (logout : Connection → Except String Connection) : Bool × Nat :=
  if conn.logged_in = true then
    match logout conn with
    | .ok _ => (true, 1)
    | .error _ => (false, 1)
  else (true, 0)

/-- The update-interval computation in `async_setup_entry` (source lines
91-94): when `entry.options.get(CONF_UPDATE_INTERVAL)` is truthy (present
and non-zero) use it, else use `DEFAULT_UPDATE_INTERVAL`; the result is
used as minutes. No clamping is applied — `MIN_UPDATE_INTERVAL` is
imported on line 43 but never used. -/
def async_setup_entry_interval (configured : Option Nat)
    (defaultInterval : Nat) : Nat :=
  match configured with
  | some n => if n != 0 then n else defaultInterval
  | none => defaultInterval

/-- Modelled from the spec: "update interval (minutes, floor enforced)" —
the computation the spec intends clamps the configured interval up to the
enforced minimum floor (`MIN_UPDATE_INTERVAL`, whose value lives in the
`const.py` of the repository, which is not under `src/`). -/
def spec_update_interval (configured : Option Nat) (defaultInterval : Nat)
    (floor : Nat) : Nat :=
  max floor (async_setup_entry_interval configured defaultInterval)

/-- Outcome a refresh operation eventually produces: a snapshot or a
refresh error. -/
inductive RefreshOutcome where
  | ok (snapshot : List Instrument)
  | err (e : RefreshError)
  deriving DecidableEq

/-- Modelled from the spec: the scheduling state of
`async_request_refresh` coalescing, which lives in the
`DataUpdateCoordinator` of Home Assistant (not under `src/`; the repository only calls it).
`inFlight` holds the outcome the pending refresh will produce, when one
is pending; `fetches` counts fetches started. -/
structure SchedState where
  inFlight : Option RefreshOutcome
  fetches : Nat
  deriving DecidableEq

/-- Modelled from the spec: `request_refresh` "schedules a refresh if one
is not already in flight; if a caller requests refresh while one is
pending, it attaches to the completion of the existing in-flight operation
rather than starting a second fetch (coalescing)". Returns the new
scheduling state and the outcome this caller observes; `fresh` produces
the outcome of a newly started fetch. -/
def request_refresh (s : SchedState) (fresh : Unit → RefreshOutcome) :
    SchedState × RefreshOutcome :=
  match s.inFlight with
  | some o => (s, o)
  | none =>
      let o := fresh ()
      (⟨some o, s.fetches + 1⟩, o)

/-- A sequence of `n` successive `request_refresh` calls under the
cooperative event loop: returns the final scheduling state and the list
of outcomes the callers observed. -/
def requestMany (s : SchedState) (fresh : Unit → RefreshOutcome) :
    Nat → SchedState × List RefreshOutcome
  | 0 => (s, [])
  | n + 1 =>
      let (s1, o) := request_refresh s fresh
      let (s2, os) := requestMany s1 fresh n
      (s2, o :: os)

/-- The lookup-scenario instrument of the spec with attribute key `range`. -/
def rangeInstrument : Instrument :=
  ⟨"TMBJB7NS0123456789", "sensor", "range"⟩

/-- The lookup-scenario instrument of the spec with attribute key
`battery_level`, sharing the vehicle id of `rangeInstrument`. -/
def batteryInstrument : Instrument :=
  ⟨"TMBJB7NS0123456789", "sensor", "battery_level"⟩

/-- A `SkodaData` whose coordinator snapshot holds the two scenario
instruments. -/
def sampleSkodaData : SkodaData :=
  ⟨some [rangeInstrument, batteryInstrument], []⟩

theorem set_current_sent (call : MaxCurrentCall) (remote : SVal → Bool) :
    (set_current call remote).sent = some (mapCurrent call.current) := by
  simp only [set_current]
  cases h : remote (mapCurrent call.current) <;> simp [h]

theorem set_current_refreshes (call : MaxCurrentCall) (remote : SVal → Bool) :
    (set_current call remote).refreshes =
      if remote (mapCurrent call.current) then 1 else 0 := by
  simp only [set_current]
  cases h : remote (mapCurrent call.current) <;> simp [h]

theorem set_charge_limit_sent (call : ChargeLimitCall) (remote : Int → Bool) :
    (set_charge_limit call remote).sent = some call.limit := by
  simp only [set_charge_limit]
  cases h : remote call.limit <;> simp [h]

theorem set_charge_limit_refreshes (call : ChargeLimitCall)
    (remote : Int → Bool) :
    (set_charge_limit call remote).refreshes =
      if remote call.limit then 1 else 0 := by
  simp only [set_charge_limit]
  cases h : remote call.limit <;> simp [h]

theorem set_schedule_refreshes (call : ScheduleCall)
    (remote : Int → ScheduleData → Bool) :
    (set_schedule call remote).refreshes =
      if remote call.id (scheduleOf call) then 1 else 0 := by
  simp only [set_schedule]
  cases h : remote call.id (scheduleOf call) <;> simp [h]

/-- C10: in a snapshot where the tuple (vehicle id, category, attribute
key) is unique, `SkodaData.instrument` resolves each registered tuple to
its unique matching instrument, resolves an unregistered tuple to no
instrument, and distinct tuples resolve to distinct instruments. -/
theorem skodaData_instrument_lookup (d : SkodaData)
    (huniq : ∀ i ∈ d.source, ∀ j ∈ d.source,
      i.vin = j.vin → i.component = j.component → i.attr = j.attr → i = j) :
    (∀ i ∈ d.source, d.instrument i.vin i.component i.attr = some i) ∧
    (∀ v c a, (∀ i ∈ d.source, ¬(i.vin = v ∧ i.component = c ∧ i.attr = a)) →
      d.instrument v c a = none) ∧
    (∀ i ∈ d.source, ∀ j ∈ d.source,
      ¬(i.vin = j.vin ∧ i.component = j.component ∧ i.attr = j.attr) →
      d.instrument i.vin i.component i.attr ≠
        d.instrument j.vin j.component j.attr) := by
  have hfind : ∀ i ∈ d.source, d.instrument i.vin i.component i.attr = some i := by
    intro i hi
    unfold SkodaData.instrument
    cases hcase : d.source.find?
        (fun k => k.vin == i.vin && k.component == i.component && k.attr == i.attr) with
    | none =>
        have hni := List.find?_eq_none.mp hcase i hi
        simp at hni
    | some k =>
        have hk : k ∈ d.source := List.mem_of_find?_eq_some hcase
        have hpk := List.find?_some hcase
        simp only [Bool.and_eq_true, beq_iff_eq] at hpk
        rw [huniq k hk i hi hpk.1.1 hpk.1.2 hpk.2]
  refine ⟨hfind, ?_, ?_⟩
  · intro v c a hnone
    unfold SkodaData.instrument
    rw [List.find?_eq_none]
    intro x hx hpx
    simp only [Bool.and_eq_true, beq_iff_eq] at hpx
    exact hnone x hx ⟨hpx.1.1, hpx.1.2, hpx.2⟩
  · intro i hi j hj hne heq
    rw [hfind i hi, hfind j hj] at heq
    have : i = j := by injection heq
    subst this
    exact hne ⟨rfl, rfl, rfl⟩

theorem skodaData_instrument_lookup_witness :
    sampleSkodaData.instrument rangeInstrument.vin rangeInstrument.component
        rangeInstrument.attr = some rangeInstrument ∧
    sampleSkodaData.instrument batteryInstrument.vin batteryInstrument.component
        batteryInstrument.attr = some batteryInstrument ∧
    sampleSkodaData.instrument "TMBJB7NS0123456789" "sensor" "position" = none ∧
    sampleSkodaData.instrument rangeInstrument.vin rangeInstrument.component
        rangeInstrument.attr ≠
      sampleSkodaData.instrument batteryInstrument.vin batteryInstrument.component
        batteryInstrument.attr := by
  have h := skodaData_instrument_lookup sampleSkodaData (by decide)
  exact ⟨h.1 rangeInstrument (by decide), h.1 batteryInstrument (by decide),
    h.2.1 "TMBJB7NS0123456789" "sensor" "position" (by decide),
    h.2.2 rangeInstrument (by decide) batteryInstrument (by decide) (by decide)⟩

/-- C4: `set_max_current` sends the symbolic value "maximum" as numeric
code 254 and "reduced" as 252; an integer in [5,32] is sent unchanged;
an integer outside [5,32] is rejected by `SERVICE_SET_MAX_CURRENT_SCHEMA`
before any remote call (nothing sent, no refresh). -/
theorem set_max_current_mapping (dev : String) (hdev : dev.length = 32)
    (remote : SVal → Bool) :
    (invokeSetMaxCurrent ⟨dev, .str "maximum"⟩ remote).sent = some (.num 254) ∧
    (invokeSetMaxCurrent ⟨dev, .str "reduced"⟩ remote).sent = some (.num 252) ∧
    (∀ n : Int, 5 ≤ n → n ≤ 32 →
      (invokeSetMaxCurrent ⟨dev, .num n⟩ remote).sent = some (.num n)) ∧
    (∀ n : Int, ¬(5 ≤ n ∧ n ≤ 32) →
      invokeSetMaxCurrent ⟨dev, .num n⟩ remote = ⟨none, 0⟩) := by
  refine ⟨?_, ?_, ?_, ?_⟩
  · have hs : SERVICE_SET_MAX_CURRENT_SCHEMA ⟨dev, .str "maximum"⟩ = true := by
      simp [SERVICE_SET_MAX_CURRENT_SCHEMA, validDeviceId, hdev]
    rw [invokeSetMaxCurrent, hs, if_pos rfl, set_current_sent]
    rfl
  · have hs : SERVICE_SET_MAX_CURRENT_SCHEMA ⟨dev, .str "reduced"⟩ = true := by
      simp [SERVICE_SET_MAX_CURRENT_SCHEMA, validDeviceId, hdev]
    rw [invokeSetMaxCurrent, hs, if_pos rfl, set_current_sent]
    rfl
  · intro n h5 h32
    have hs : SERVICE_SET_MAX_CURRENT_SCHEMA ⟨dev, .num n⟩ = true := by
      simp [SERVICE_SET_MAX_CURRENT_SCHEMA, validDeviceId, hdev]
      omega
    rw [invokeSetMaxCurrent, hs, if_pos rfl, set_current_sent]
    rfl
  · intro n hn
    have hs : SERVICE_SET_MAX_CURRENT_SCHEMA ⟨dev, .num n⟩ = false := by
      simp [SERVICE_SET_MAX_CURRENT_SCHEMA, validDeviceId, hdev]
      omega
    rw [invokeSetMaxCurrent, hs, if_neg]
    exact Bool.false_ne_true

theorem set_max_current_mapping_witness :
    (invokeSetMaxCurrent ⟨"0123456789abcdef0123456789abcdef", .str "maximum"⟩
        (fun _ => true)).sent = some (.num 254) ∧
    (invokeSetMaxCurrent ⟨"0123456789abcdef0123456789abcdef", .str "reduced"⟩
        (fun _ => true)).sent = some (.num 252) ∧
    (invokeSetMaxCurrent ⟨"0123456789abcdef0123456789abcdef", .num 20⟩
        (fun _ => true)).sent = some (.num 20) ∧
    invokeSetMaxCurrent ⟨"0123456789abcdef0123456789abcdef", .num 3⟩
        (fun _ => true) = ⟨none, 0⟩ := by
  have h := set_max_current_mapping "0123456789abcdef0123456789abcdef"
    (by decide) (fun _ => true)
  exact ⟨h.1, h.2.1, h.2.2.1 20 (by decide) (by decide), h.2.2.2 3 (by decide)⟩

/-- C5: `set_charge_limit` with limit 25 is rejected by
`SERVICE_SET_CHARGE_LIMIT_SCHEMA` before any remote call; with a valid
limit such as 30 the remote action is invoked with that limit, a truthy
result triggers exactly one coordinator refresh and a falsy result
triggers zero. -/
theorem set_charge_limit_validation (dev : String) (hdev : dev.length = 32)
    (remote : Int → Bool) :
    invokeSetChargeLimit ⟨dev, 25⟩ remote = ⟨none, 0⟩ ∧
    (invokeSetChargeLimit ⟨dev, 30⟩ remote).sent = some 30 ∧
    (remote 30 = true → (invokeSetChargeLimit ⟨dev, 30⟩ remote).refreshes = 1) ∧
    (remote 30 = false → (invokeSetChargeLimit ⟨dev, 30⟩ remote).refreshes = 0) := by
  have hs25 : SERVICE_SET_CHARGE_LIMIT_SCHEMA ⟨dev, 25⟩ = false := by
    simp [SERVICE_SET_CHARGE_LIMIT_SCHEMA, validDeviceId, hdev]
  have hs30 : SERVICE_SET_CHARGE_LIMIT_SCHEMA ⟨dev, 30⟩ = true := by
    simp [SERVICE_SET_CHARGE_LIMIT_SCHEMA, validDeviceId, hdev]
  refine ⟨?_, ?_, ?_, ?_⟩
  · rw [invokeSetChargeLimit, hs25, if_neg]
    exact Bool.false_ne_true
  · rw [invokeSetChargeLimit, hs30, if_pos rfl, set_charge_limit_sent]
  · intro hr
    rw [invokeSetChargeLimit, hs30, if_pos rfl, set_charge_limit_refreshes]
    simp [hr]
  · intro hr
    rw [invokeSetChargeLimit, hs30, if_pos rfl, set_charge_limit_refreshes]
    simp [hr]

theorem set_charge_limit_validation_witness :
    invokeSetChargeLimit ⟨"0123456789abcdef0123456789abcdef", 25⟩
        (fun _ => true) = ⟨none, 0⟩ ∧
    (invokeSetChargeLimit ⟨"0123456789abcdef0123456789abcdef", 30⟩
        (fun _ => true)).refreshes = 1 ∧
    (invokeSetChargeLimit ⟨"0123456789abcdef0123456789abcdef", 30⟩
        (fun _ => false)).refreshes = 0 := by
  have ht := set_charge_limit_validation "0123456789abcdef0123456789abcdef"
    (by decide) (fun _ => true)
  have hf := set_charge_limit_validation "0123456789abcdef0123456789abcdef"
    (by decide) (fun _ => false)
  exact ⟨ht.1, ht.2.2.1 rfl, hf.2.2.2 rfl⟩

/-- C6: each action handler requests a coordinator refresh exactly when
its remote action reports success — `set_schedule`, `set_charge_limit`
and `set_current` check the boolean result and request one refresh on a
truthy result and zero on a falsy one; `set_pheater_duration`, whose
remote action is an assignment with no failure result, always requests
exactly one refresh. -/
theorem actions_refresh_only_on_success (sc : ScheduleCall)
    (remoteSchedule : Int → ScheduleData → Bool)
    (cl : ChargeLimitCall) (remoteLimit : Int → Bool)
    (mc : MaxCurrentCall) (remoteCurrent : SVal → Bool)
    (pd : PheaterCall) :
    (set_schedule sc remoteSchedule).refreshes =
      (if remoteSchedule sc.id (scheduleOf sc) then 1 else 0) ∧
    (set_charge_limit cl remoteLimit).refreshes =
      (if remoteLimit cl.limit then 1 else 0) ∧
    (set_current mc remoteCurrent).refreshes =
      (if remoteCurrent (mapCurrent mc.current) then 1 else 0) ∧
    (set_pheater_duration pd).refreshes = 1 :=
  ⟨set_schedule_refreshes sc remoteSchedule,
   set_charge_limit_refreshes cl remoteLimit,
   set_current_refreshes mc remoteCurrent, rfl⟩

/-- C7: `async_login` returns true iff the connection is logged in
afterwards; when already logged in it returns true without calling
`doLogin`; when the login attempt leaves the connection logged out it
returns false — a plain boolean result, no exception is raised (the
function is total). -/
theorem async_login_spec (conn : Connection)
    (doLogin : Connection → Connection) :
    ((SkodaCoordinator.async_login conn doLogin).1 = true ↔
      (SkodaCoordinator.async_login conn doLogin).2.1.logged_in = true) ∧
    (conn.logged_in = true →
      SkodaCoordinator.async_login conn doLogin = (true, conn, 0)) ∧
    (conn.logged_in = false → (doLogin conn).logged_in = false →
      (SkodaCoordinator.async_login conn doLogin).1 = false) := by
  refine ⟨?_, ?_, ?_⟩
  · unfold SkodaCoordinator.async_login
    cases hl : conn.logged_in with
    | false =>
        simp only [hl]
        cases h2 : (doLogin conn).logged_in <;> simp [h2]
    | true => simp [hl]
  · intro hl
    unfold SkodaCoordinator.async_login
    simp [hl]
  · intro hl h2
    unfold SkodaCoordinator.async_login
    simp [hl, h2]

theorem async_login_spec_witness :
    SkodaCoordinator.async_login ⟨true, true, []⟩ (fun c => c) =
      (true, ⟨true, true, []⟩, 0) ∧
    (SkodaCoordinator.async_login ⟨false, true, []⟩
      (fun _ => ⟨false, true, []⟩)).1 = false := by
  have h1 := async_login_spec ⟨true, true, []⟩ (fun c => c)
  have h2 := async_login_spec ⟨false, true, []⟩ (fun _ => ⟨false, true, []⟩)
  exact ⟨h1.2.1 rfl, h2.2.2 rfl rfl⟩

/-- C8: `async_logout` returns true when already logged out (without
calling `logout`) and on a successful logout; an exception raised by the
underlying logout is swallowed (the function is total, so it never
re-raises) and turned into a false return. -/
theorem async_logout_spec (conn : Connection)
    (logout : Connection → Except String Connection) :
    (conn.logged_in = false →
      SkodaCoordinator.async_logout conn logout = (true, 0)) ∧
    (∀ c2, conn.logged_in = true → logout conn = .ok c2 →
      SkodaCoordinator.async_logout conn logout = (true, 1)) ∧
    (∀ e, conn.logged_in = true → logout conn = .error e →
      SkodaCoordinator.async_logout conn logout = (false, 1)) := by
  refine ⟨?_, ?_, ?_⟩
  · intro hl
    unfold SkodaCoordinator.async_logout
    simp [hl]
  · intro c2 hl hok
    unfold SkodaCoordinator.async_logout
    simp [hl, hok]
  · intro e hl herr
    unfold SkodaCoordinator.async_logout
    simp [hl, herr]

theorem async_logout_spec_witness :
    SkodaCoordinator.async_logout ⟨false, true, []⟩ (fun c => .ok c) = (true, 0) ∧
    SkodaCoordinator.async_logout ⟨true, true, []⟩ (fun c => .ok c) = (true, 1) ∧
    SkodaCoordinator.async_logout ⟨true, true, []⟩
      (fun _ => .error "transport") = (false, 1) := by
  have h1 := async_logout_spec ⟨false, true, []⟩ (fun c => .ok c)
  have h2 := async_logout_spec ⟨true, true, []⟩ (fun c => .ok c)
  have h3 := async_logout_spec ⟨true, true, []⟩ (fun _ => .error "transport")
  exact ⟨h1.1 rfl, h2.2.1 ⟨true, true, []⟩ rfl rfl, h3.2.2 "transport" rfl rfl⟩

/-- C2: when the fetch fails or the configured vehicle is absent from the
fetched list, the refresh fails with the RefreshError `UpdateFailed`,
leaves the snapshot untouched and sets `last_update_success` to false; on
success the derived instrument list replaces the snapshot and
`last_update_success` becomes true. -/
theorem refresh_failure_success (st : CoordState) (conn : Connection)
    (vin : String) (dashboard : VehicleRec → List Instrument) :
    (conn.updateOk = false ∨
        (conn.vehicles.find? fun v => pyUpper v.vin == vin) = none →
      (SkodaCoordinator.async_update_data conn vin dashboard).1 =
        .error (.updateFailed updateFailedMessage) ∧
      SkodaCoordinator.async_refresh st conn vin dashboard = ⟨st.data, false⟩) ∧
    (∀ v, conn.updateOk = true →
      (conn.vehicles.find? fun w => pyUpper w.vin == vin) = some v →
      (SkodaCoordinator.async_update_data conn vin dashboard).1 =
        .ok (dashboard v) ∧
      SkodaCoordinator.async_refresh st conn vin dashboard =
        ⟨some (dashboard v), true⟩) := by
  constructor
  · intro hfail
    have hnone : SkodaCoordinator.update conn vin = (none, 1) := by
      unfold SkodaCoordinator.update
      cases hok : conn.updateOk with
      | false => simp
      | true =>
          rcases hfail with h | h
          · rw [hok] at h
            exact absurd h (by simp)
          · simp [h]
    have herr : (SkodaCoordinator.async_update_data conn vin dashboard).1 =
        .error (.updateFailed updateFailedMessage) := by
      unfold SkodaCoordinator.async_update_data
      rw [hnone]
    refine ⟨herr, ?_⟩
    unfold SkodaCoordinator.async_refresh
    rw [herr]
  · intro v hok hfind
    have hsome : SkodaCoordinator.update conn vin = (some v, 1) := by
      unfold SkodaCoordinator.update
      simp [hok, hfind]
    have hok2 : (SkodaCoordinator.async_update_data conn vin dashboard).1 =
        .ok (dashboard v) := by
      unfold SkodaCoordinator.async_update_data
      rw [hsome]
    refine ⟨hok2, ?_⟩
    unfold SkodaCoordinator.async_refresh
    rw [hok2]

theorem refresh_failure_success_witness :
    SkodaCoordinator.async_refresh ⟨some [rangeInstrument], true⟩
        ⟨true, false, []⟩ "ABC" (fun _ => []) =
      ⟨some [rangeInstrument], false⟩ ∧
    SkodaCoordinator.async_refresh ⟨none, false⟩ ⟨true, true, [⟨"abc"⟩]⟩
        "ABC" (fun _ => [rangeInstrument]) =
      ⟨some [rangeInstrument], true⟩ := by
  have h1 := refresh_failure_success ⟨some [rangeInstrument], true⟩
    ⟨true, false, []⟩ "ABC" (fun _ => [])
  have h2 := refresh_failure_success ⟨none, false⟩ ⟨true, true, [⟨"abc"⟩]⟩
    "ABC" (fun _ => [rangeInstrument])
  exact ⟨(h1.1 (Or.inl rfl)).2, (h2.2 ⟨"abc"⟩ rfl (by decide)).2⟩

/-- C3 counterexample: with the connection logged out, a refresh does not
fail fast without a network call — `connection.update()` is still invoked
(fetch count 1, not 0), and the resulting failure is the generic
`UpdateFailed` refresh error; no authentication-specific fast path exists
in the coordinator. -/
theorem refresh_logged_out_counterexample :
    (SkodaCoordinator.update ⟨false, false, []⟩ "ABC").2 = 1 ∧
    (SkodaCoordinator.async_update_data ⟨false, false, []⟩ "ABC"
      (fun _ => [])).1 = .error (.updateFailed updateFailedMessage) :=
  ⟨rfl, rfl⟩

/-- C3 amended: a refresh performs exactly one `connection.update()`
fetch regardless of login state — there is no logged-out fast path — and
when that fetch fails the refresh fails with the RefreshError
`UpdateFailed`, not an authentication error. -/
theorem refresh_always_fetches (conn : Connection) (vin : String)
    (dashboard : VehicleRec → List Instrument) :
    (SkodaCoordinator.update conn vin).2 = 1 ∧
    (SkodaCoordinator.async_update_data conn vin dashboard).2 = 1 ∧
    (conn.updateOk = false →
      (SkodaCoordinator.async_update_data conn vin dashboard).1 =
        .error (.updateFailed updateFailedMessage)) := by
  have hfetch : (SkodaCoordinator.update conn vin).2 = 1 := by
    unfold SkodaCoordinator.update
    cases h : conn.updateOk <;> simp
  refine ⟨hfetch, ?_, ?_⟩
  · unfold SkodaCoordinator.async_update_data
    rcases hu : SkodaCoordinator.update conn vin with ⟨o, f⟩
    have hf : f = 1 := by rw [hu] at hfetch; exact hfetch
    subst hf
    cases o <;> rfl
  · intro h
    unfold SkodaCoordinator.async_update_data SkodaCoordinator.update
    simp [h]

theorem refresh_always_fetches_witness :
    (SkodaCoordinator.update ⟨true, true, []⟩ "ABC").2 = 1 ∧
    (SkodaCoordinator.async_update_data ⟨false, false, []⟩ "ABC"
      (fun _ => [])).1 = .error (.updateFailed updateFailedMessage) :=
  ⟨(refresh_always_fetches ⟨true, true, []⟩ "ABC" (fun _ => [])).1,
   (refresh_always_fetches ⟨false, false, []⟩ "ABC" (fun _ => [])).2.2 rfl⟩

/-- C9: `async_setup_entry` applies no minimum floor to the configured
update interval — a configured interval of 1 minute is used as-is for
every default value, so for any floor greater than 1 minute the effective
interval stays below the floor; the clamped computation of the spec would
yield the floor instead (`MIN_UPDATE_INTERVAL` is imported on source line
43 but never used). -/
theorem update_interval_not_floored (d floor : Nat) (h : 1 < floor) :
    async_setup_entry_interval (some 1) d = 1 ∧
    async_setup_entry_interval (some 1) d < floor ∧
    spec_update_interval (some 1) d floor = floor := by
  refine ⟨rfl, h, ?_⟩
  simp [spec_update_interval, async_setup_entry_interval]
  omega

theorem update_interval_not_floored_witness :
    async_setup_entry_interval (some 1) 30 = 1 ∧
    async_setup_entry_interval (some 1) 30 < 5 ∧
    spec_update_interval (some 1) 30 5 = 5 :=
  update_interval_not_floored 30 5 (by decide)

/-- C1 (modelled from the spec, the coalescing lives in the
DataUpdateCoordinator of the host framework): starting from a state with one
refresh in flight — one fetch already started, with eventual outcome
`o` — any number of further `request_refresh` calls leaves the scheduling
state unchanged (in particular the fetch count stays at one, so exactly
one fetch occurs in total) and every caller observes the same outcome
`o`. -/
theorem request_refresh_coalesces (o : RefreshOutcome)
    (fresh : Unit → RefreshOutcome) (n : Nat) :
    (requestMany ⟨some o, 1⟩ fresh n).1 = ⟨some o, 1⟩ ∧
    (requestMany ⟨some o, 1⟩ fresh n).1.fetches = 1 ∧
    ∀ x ∈ (requestMany ⟨some o, 1⟩ fresh n).2, x = o := by
  have key : ∀ m, requestMany ⟨some o, 1⟩ fresh m =
      (⟨some o, 1⟩, List.replicate m o) := by
    intro m
    induction m with
    | zero => rfl
    | succ k ih => simp [requestMany, request_refresh, ih, List.replicate_succ]
  rw [key n]
  refine ⟨rfl, rfl, ?_⟩
  intro x hx
  exact List.eq_of_mem_replicate hx
